import Mathlib

/-!
Shallow embedding of `gempyor.model_info` (file
`flepimop/gempyor_pkg/src/gempyor/model_info.py`): the `ModelInfo`
constructor (run-descriptor construction) and its filename helpers
(`get_filename`, `read_simID`, `write_simID`).

Conventions of the embedding:
* Python exceptions are the error side of `Except PyErr`.
* Python `float` step sizes are modelled as `Rat` (every value the code
  produces here comes from exact literals or exact ratios).
* Calendar dates `ti`/`tf` are modelled as day ordinals (`Int`), so the
  Python `(tf - ti).days` is `tf - ti`.
* A confuse configuration section with `.exists()` / `in keys()` checks is
  an `Option` field; an attribute that the constructor may leave unset is
  an `Option` field of the resulting record (`none` = attribute not set).
* Side effects that only log or print are recorded in `List String`
  fields; directory creation (`os.makedirs`) and the dataframe codecs
  (`read_df` / `write_df`) are external collaborators and are not modelled:
  `read_simID` / `write_simID` return the filename handed to the codec.
-/

namespace Gempyor

/-- Python exceptions raised (directly or by builtins) in the translated code. -/
inductive PyErr where
  /-- `raise ValueError(msg)` -/
  | valueError (msg : String)
  /-- attribute lookup on an object that has no such attribute -/
  | attributeError (attr : String)
  /-- `eval` of a malformed expression (or a zero division inside it) -/
  | evalError (src : String)
deriving DecidableEq, Repr

/-- The `integration` sub-block of the SEIR configuration: optional
`method` and `dt` fields (a `none` field is one absent from `keys()`). -/
structure IntegrationBlock where
  method : Option String
  dt : Option String
deriving DecidableEq, Repr

/-- A SEIR configuration section: the constructor only inspects its
optional `integration` sub-block. -/
structure SeirConfig where
  integration : Option IntegrationBlock
deriving DecidableEq, Repr

/-- The process-wide configuration (the module-level `config` imported from
`gempyor.utils`), restricted to the sections the constructor queries, plus
the values produced by the external environment during construction
(`file_paths.run_id()` for each side, `datetime.datetime.now()`). -/
structure GlobalConfig where
  /-- `config["seir"]`: `none` when `.exists()` is false -/
  seir : Option SeirConfig
  /-- `config["compartments"].exists()` -/
  compartments_exists : Bool
  /-- `config["outcomes_modifiers"].exists()` -/
  outcomes_modifiers_exists : Bool
  /-- value `file_paths.run_id()` would return for the input side -/
  gen_in_run_id : String
  /-- value `file_paths.run_id()` would return for the output side -/
  gen_out_run_id : String
  /-- formatted `datetime.datetime.now()` timestamp -/
  now_timestamp : String
deriving DecidableEq, Repr

/-- The externally-owned subpopulation structure; the constructor only
copies out these fields (mobility and populations are opaque here). -/
structure SubpopSetup where
  nsubpops : Nat
  subpop_names : List String
deriving DecidableEq, Repr

/-- The keyword arguments of `ModelInfo.__init__`.  Sub-configurations whose
contents the constructor never inspects are modelled by their Python
truthiness (`true` = non-empty). -/
structure InitArgs where
  setup_name : String
  subpop_setup : SubpopSetup
  nslots : Nat
  /-- `ti`, time to start (day ordinal) -/
  ti : Int
  /-- `tf`, time to finish (day ordinal) -/
  tf : Int
  npi_scenario : Option String
  npi_config_seir : Bool
  seeding_config : Bool
  initial_conditions_config : Bool
  /-- truthiness of the `parameters_config` argument (default `{}` is falsy) -/
  parameters_config : Bool
  /-- the `seir_config` argument (default `None`) -/
  seir_config : Option SeirConfig
  /-- truthiness of the `outcomes_config` argument (default `{}` is falsy) -/
  outcomes_config : Bool
  outcome_scenario : Option String
  interactive : Bool
  write_csv : Bool
  write_parquet : Bool
  /-- the `dt` argument (step size override, default `None`) -/
  dt : Option Rat
  first_sim_index : Int
  in_run_id : Option String
  out_run_id : Option String
  in_pfx : Option String
  out_pfx : Option String
  stoch_traj_flag : Bool
deriving DecidableEq, Repr

/-! ### Arithmetic evaluation of the `dt` formula string -/

/-- An exact, possibly unreduced fraction `(numerator, denominator)` used
while evaluating a formula; every fraction built below has a nonzero
denominator. -/
abbrev Frac := Int × Int

/-- Fraction addition. -/
def fadd (x y : Frac) : Frac := (x.1 * y.2 + y.1 * x.2, x.2 * y.2)

/-- Fraction subtraction. -/
def fsub (x y : Frac) : Frac := (x.1 * y.2 - y.1 * x.2, x.2 * y.2)

/-- Fraction multiplication. -/
def fmul (x y : Frac) : Frac := (x.1 * y.1, x.2 * y.2)

/-- Fraction division (the caller rules out a zero divisor). -/
def fdiv (x y : Frac) : Frac := (x.1 * y.2, x.2 * y.1)

/-- Fraction negation. -/
def fneg (x : Frac) : Frac := (-x.1, x.2)

/-- Tokens of an arithmetic formula string. -/
inductive FTok where
  | num (q : Frac)
  | plus
  | minus
  | star
  | slash
  | lpar
  | rpar
deriving DecidableEq, Repr

/-- Read a maximal run of digits, accumulating its value. -/
def lexNat : List Char → Nat → Nat × List Char
  | [], acc => (acc, [])
  | c :: cs, acc =>
      if c.isDigit then lexNat cs (10 * acc + (c.toNat - 48)) else (acc, c :: cs)

/-- Read a maximal run of digits, accumulating value and digit count
(for the fractional part of a decimal literal). -/
def lexFracDigits : List Char → Nat → Nat → Nat × Nat × List Char
  | [], acc, len => (acc, len, [])
  | c :: cs, acc, len =>
      if c.isDigit then lexFracDigits cs (10 * acc + (c.toNat - 48)) (len + 1)
      else (acc, len, c :: cs)

/-- Read a numeric literal (integer or decimal) as an exact fraction. -/
def lexNumber (cs : List Char) : Frac × List Char :=
  let (n, rest) := lexNat cs 0
  match rest with
  | '.' :: rest2 =>
      let (f, len, rest3) := lexFracDigits rest2 0 0
      ((((n * 10 ^ len + f : Nat) : Int), ((10 ^ len : Nat) : Int)), rest3)
  | _ => (((n : Int), 1), rest)

/-- Tokenizer with explicit fuel (each step consumes at least one
character, so fuel `length + 1` always suffices). -/
def tokenizeAux : Nat → List Char → Option (List FTok)
  | _, [] => some []
  | 0, _ :: _ => none
  | fuel + 1, c :: cs =>
      if c = ' ' then tokenizeAux fuel cs
      else if c = '+' then (tokenizeAux fuel cs).map (FTok.plus :: ·)
      else if c = '-' then (tokenizeAux fuel cs).map (FTok.minus :: ·)
      else if c = '*' then (tokenizeAux fuel cs).map (FTok.star :: ·)
      else if c = '/' then (tokenizeAux fuel cs).map (FTok.slash :: ·)
      else if c = '(' then (tokenizeAux fuel cs).map (FTok.lpar :: ·)
      else if c = ')' then (tokenizeAux fuel cs).map (FTok.rpar :: ·)
      else if c.isDigit then
        let (q, rest) := lexNumber (c :: cs)
        (tokenizeAux fuel rest).map (FTok.num q :: ·)
      else none

/-- Tokenize a formula string; `none` when a character is outside the
grammar. -/
def tokenize (s : String) : Option (List FTok) :=
  tokenizeAux (s.length + 1) s.data

mutual

/-- Parse an expression: a chain of terms joined by `+` / `-`. -/
def parseExpr : Nat → List FTok → Option (Frac × List FTok)
  | 0, _ => none
  | fuel + 1, ts =>
      match parseTerm fuel ts with
      | none => none
      | some (v, ts1) => parseExprRest fuel v ts1

/-- Parse the continuation of an additive chain. -/
def parseExprRest : Nat → Frac → List FTok → Option (Frac × List FTok)
  | 0, _, _ => none
  | fuel + 1, v, FTok.plus :: ts =>
      match parseTerm fuel ts with
      | none => none
      | some (w, ts1) => parseExprRest fuel (fadd v w) ts1
  | fuel + 1, v, FTok.minus :: ts =>
      match parseTerm fuel ts with
      | none => none
      | some (w, ts1) => parseExprRest fuel (fsub v w) ts1
  | _ + 1, v, ts => some (v, ts)

/-- Parse a term: a chain of factors joined by `*` / `/`. -/
def parseTerm : Nat → List FTok → Option (Frac × List FTok)
  | 0, _ => none
  | fuel + 1, ts =>
      match parseFactor fuel ts with
      | none => none
      | some (v, ts1) => parseTermRest fuel v ts1

/-- Parse the continuation of a multiplicative chain; division by zero is
an evaluation failure (Python raises `ZeroDivisionError`). -/
def parseTermRest : Nat → Frac → List FTok → Option (Frac × List FTok)
  | 0, _, _ => none
  | fuel + 1, v, FTok.star :: ts =>
      match parseFactor fuel ts with
      | none => none
      | some (w, ts1) => parseTermRest fuel (fmul v w) ts1
  | fuel + 1, v, FTok.slash :: ts =>
      match parseFactor fuel ts with
      | none => none
      | some (w, ts1) =>
          if w.1 = 0 then none else parseTermRest fuel (fdiv v w) ts1
  | _ + 1, v, ts => some (v, ts)

/-- Parse a factor: a literal, a negation, or a parenthesised expression. -/
def parseFactor : Nat → List FTok → Option (Frac × List FTok)
  | 0, _ => none
  | fuel + 1, FTok.num q :: ts => some (q, ts)
  | fuel + 1, FTok.minus :: ts =>
      match parseFactor fuel ts with
      | none => none
      | some (v, ts1) => some (fneg v, ts1)
  | fuel + 1, FTok.lpar :: ts =>
      match parseExpr fuel ts with
      | none => none
      | some (v, ts1) =>
          match ts1 with
          | FTok.rpar :: ts2 => some (v, ts2)
          | _ => none
  | _ + 1, _ => none

end

/-- Modelled from the spec: the numeric evaluation that
`float(eval(str(...)))` performs on the configured `dt` field (`eval` is a
Python builtin outside the excerpt).  The spec describes the field as "a
formula string ... numerically evaluated (supports arbitrary arithmetic
expressions, e.g. ratios)" and confines the needed grammar to `+`, `-`,
`*`, `/` and parentheses over numeric literals.  `none` means the
evaluation raises. -/
def evalFormula (s : String) : Option Rat :=
  match tokenize s with
  | none => none
  | some ts =>
      match parseExpr (3 * ts.length + 3) ts with
      | some (v, []) => some (Rat.divInt v.1 v.2)
      | _ => none

/-! ### Integration method and step-size resolution (lines 90-113) -/

/-- Alias resolution and validation of a configured integration method
string (lines 94-100): `"best.current"` and `"rk4"` are rewritten to
`"rk4.jit"`, then anything other than `"rk4.jit"` or `"legacy"` raises
`ValueError`. -/
def resolveMethod (m0 : String) : Except PyErr String :=
  let m1 := if m0 = "best.current" then "rk4.jit" else m0
  let m2 := if m1 = "rk4" then "rk4.jit" else m1
  if m2 = "rk4.jit" ∨ m2 = "legacy" then Except.ok m2
  else Except.error (PyErr.valueError ("Unknown integration method " ++ m2 ++ "."))

/-- The log line emitted when the `integration` block is absent. -/
def integrationDefaultMsg : String :=
  "Integration method not provided, assuming type rk4.jit"

/-- Lines 92-113 of the constructor: resolve the integration method, the
step size `dt`, and the informational log entries, from the resolved SEIR
configuration `sc` and the `dt` argument `dt0` (`self.dt` on entry).
Returns `(integration_method, dt, log entries)`; a `none` method means the
`self.integration_method` attribute is never assigned.  The trailing
`float(self.dt)` conversion (lines 112-113) is the identity on exact
rationals. -/
def resolveIntegration (sc : SeirConfig) (dt0 : Option Rat) :
    Except PyErr (Option String × Option Rat × List String) :=
  match sc.integration with
  | some ib =>
      let imE : Except PyErr (Option String) :=
        match ib.method with
        | some m0 =>
            match resolveMethod m0 with
            | Except.ok m => Except.ok (some m)
            | Except.error e => Except.error e
        | none => Except.ok none
      match imE with
      | Except.error e => Except.error e
      | Except.ok im =>
          match ib.dt, dt0 with
          | some s, none =>
              match evalFormula s with
              | some q => Except.ok (im, some q, [])
              | none => Except.error (PyErr.evalError s)
          | _, _ =>
              Except.ok (im, (if dt0.isNone then some 2 else dt0), [])
  | none =>
      Except.ok (some "rk4.jit", (if dt0.isNone then some 2 else dt0),
        [integrationDefaultMsg])

/-! ### Output-format selection (lines 156-172) -/

/-- The warning printed when both CSV and Parquet output are requested. -/
def confusedMsg : String :=
  "Confused between reading .csv or parquet. Assuming input file is .parquet"

/-- Lines 156-172 without the directory side effects: the default
`extension` attribute (`none` = never assigned) and the lines printed. -/
def resolveExtension (write_csv write_parquet : Bool) :
    Option String × List String :=
  if write_csv || write_parquet then
    let printed := if write_parquet && write_csv then [confusedMsg] else []
    if write_parquet then (some "parquet", printed)
    else if write_csv then (some "csv", printed)
    else (none, printed)
  else (none, [])

/-! ### The constructed run descriptor -/

/-- The attributes a successfully constructed `ModelInfo` instance holds
(those the claims inspect; attributes the constructor may leave unset are
`Option` fields, `none` = unset). -/
structure ModelInfo where
  setup_name : String
  nslots : Nat
  /-- `self.dt` after resolution (may stay `None` when the SEIR branch
  does not run) -/
  dt : Option Rat
  ti : Int
  tf : Int
  n_days : Int
  nsubpops : Nat
  npi_scenario : Option String
  seir_config : Option SeirConfig
  outcomes_config : Bool
  write_csv : Bool
  write_parquet : Bool
  first_sim_index : Int
  /-- `self.integration_method`; `none` when the attribute was never
  assigned -/
  integration_method : Option String
  /-- whether the `self.compartments` attribute was assigned -/
  compartments_set : Bool
  /-- `self.npi_config_outcomes` (always `none` on any reachable success) -/
  npi_config_outcomes : Option Unit
  in_run_id : String
  out_run_id : String
  in_pfx : String
  out_pfx : String
  /-- `self.extension`; `none` when the attribute was never assigned -/
  extension : Option String
  /-- `self.timestamp`; `none` when the attribute was never assigned -/
  timestamp : Option String
  /-- `logging.info` lines emitted during construction -/
  info_logs : List String
  /-- lines printed during construction -/
  printed : List String
deriving DecidableEq, Repr

/-- Render an optional string the way a Python f-string renders the value
(`None` for a missing scenario). -/
def pyShow : Option String → String
  | some s => s
  | none => "None"

/-- Lines 87-88 of the constructor: `self.seir_config` falls back to the
process-wide SEIR section when the argument is `None` and the section
exists. -/
def resolveSeirRef (g : GlobalConfig) (a : InitArgs) : Option SeirConfig :=
  if a.seir_config.isNone && g.seir.isSome then g.seir else a.seir_config

/-- Lines 90-130 of the constructor: when a process-wide SEIR section
exists and a SEIR or parameters configuration was explicitly supplied,
resolve the integration policy (on the resolved `self.seir_config`) and
construct the collaborators.  `Parameters` and `SeedingAndIC` are external
collaborators whose construction is outside the excerpt and not modelled.
Returns `(integration_method, dt, log entries, compartments attribute
set?)`. -/
def seirStep (g : GlobalConfig) (a : InitArgs) :
    Except PyErr (Option String × Option Rat × List String × Bool) :=
  if g.seir.isSome && (a.seir_config.isSome || a.parameters_config) then
    match resolveSeirRef g a with
    | some sc =>
        match resolveIntegration sc a.dt with
        | Except.error e => Except.error e
        | Except.ok (im, dtv, logs) =>
            -- line 127: `config["compartments"].exists() and
            -- self.seir_config is not None` (the latter holds here)
            Except.ok (im, dtv, logs, g.compartments_exists)
    | none =>
        -- unreachable under the branch guard: `None.keys()` would raise
        Except.error (PyErr.attributeError "keys")
  else
    Except.ok (none, a.dt, [], false)


/-- `ModelInfo.__init__` (lines 27-172).  Steps, in source order:
time-span check; resolution of `self.seir_config` from the process-wide
configuration; the SEIR branch (integration policy, external collaborators,
compartments); the outcomes step; run identifiers and path prefixes; and
the output-format block.  The outcomes step reads
`self.config["outcomes_modifiers"]` (line 135) but no `config` attribute is
ever assigned on the instance — every other configuration access in the
constructor uses the module-level `config` — so a truthy `outcomes_config`
makes the attribute lookup raise `AttributeError`. -/
def ModelInfo.init (g : GlobalConfig) (a : InitArgs) : Except PyErr ModelInfo :=
  if a.tf ≤ a.ti then
    Except.error (PyErr.valueError
      "tf (time to finish) is less than or equal to ti (time to start)")
  else
    -- lines 87-130, factored into `resolveSeirRef` / `seirStep` below
    let seirRes : Option SeirConfig := resolveSeirRef g a
    match seirStep g a with
    | Except.error e => Except.error e
    | Except.ok (im, dtv, logs, compSet) =>
        -- lines 132-138: the outcomes step
        if a.outcomes_config then
          Except.error (PyErr.attributeError "config")
        else
          -- lines 140-154: run identifiers and path prefixes
          let in_run_id := a.in_run_id.getD g.gen_in_run_id
          let out_run_id := a.out_run_id.getD g.gen_out_run_id
          let in_pfx := a.in_pfx.getD
            ("model_output/" ++ a.setup_name ++ "/" ++ in_run_id ++ "/")
          let out_pfx := a.out_pfx.getD
            ("model_output/" ++ a.setup_name ++ "/" ++ pyShow a.npi_scenario
              ++ "/" ++ out_run_id ++ "/")
          -- lines 156-172: output-format block (directory creation via
          -- `os.makedirs(..., exist_ok=True)` is an external side effect)
          let extPr := resolveExtension a.write_csv a.write_parquet
          let ts : Option String :=
            if a.write_csv || a.write_parquet then some g.now_timestamp else none
          Except.ok
            { setup_name := a.setup_name
              nslots := a.nslots
              dt := dtv
              ti := a.ti
              tf := a.tf
              n_days := a.tf - a.ti + 1
              nsubpops := a.subpop_setup.nsubpops
              npi_scenario := a.npi_scenario
              seir_config := seirRes
              outcomes_config := a.outcomes_config
              write_csv := a.write_csv
              write_parquet := a.write_parquet
              first_sim_index := a.first_sim_index
              integration_method := im
              compartments_set := compSet
              npi_config_outcomes := none
              in_run_id := in_run_id
              out_run_id := out_run_id
              in_pfx := in_pfx
              out_pfx := out_pfx
              extension := extPr.1
              timestamp := ts
              info_logs := logs
              printed := extPr.2 }

/-! ### Filename resolution -/

/-- Left-pad the decimal representation of an index with zeros to width 9. -/
def zeroPad9 (i : Int) : String :=
  let s := toString i
  if s.length < 9 then String.mk (List.replicate (9 - s.length) '0') ++ s
  else s

/-- Modelled from the spec: `file_paths.create_file_name` lives in the
`gempyor.file_paths` module, which is not part of the excerpt.  The spec
fixes the filename grammar it must produce:
"`[prefix][zero-padded 9-digit global index].[run_id].[artifact_type].[extension]`,
where prefix already ends in `/`." -/
def create_file_name (run_id pfx : String) (index : Int) (ftype ext : String) :
    String :=
  pfx ++ zeroPad9 index ++ "." ++ run_id ++ "." ++ ftype ++ "." ++ ext

/-- `ModelInfo.get_filename` (lines 190-212): resolve the extension (an
empty override string is falsy, so it falls through to `self.extension`,
which may be unset), pick run id and prefix by direction, and delegate to
`file_paths.create_file_name` with global index
`sim_id + self.first_sim_index - 1`. -/
def ModelInfo.get_filename (mi : ModelInfo) (ftype : String) (sim_id : Int)
    (inp : Bool) (extension_override : String) : Except PyErr String :=
  let extE : Except PyErr String :=
    if extension_override = "" then
      match mi.extension with
      | some e => Except.ok e
      | none => Except.error (PyErr.attributeError "extension")
    else Except.ok extension_override
  match extE with
  | Except.error e => Except.error e
  | Except.ok ext =>
      let run_id := if inp then mi.in_run_id else mi.out_run_id
      let pfx := if inp then mi.in_pfx else mi.out_pfx
      Except.ok (create_file_name run_id pfx
        (sim_id + mi.first_sim_index - 1) ftype ext)

/-- `ModelInfo.read_simID` (lines 214-222): resolves the filename and hands
it to the external `read_df` codec; the embedding returns that filename. -/
def ModelInfo.read_simID (mi : ModelInfo) (ftype : String) (sim_id : Int)
    (inp : Bool) (extension_override : String) : Except PyErr String :=
  mi.get_filename ftype sim_id inp extension_override

/-- `ModelInfo.write_simID` (lines 224-242): resolves the filename, hands
it to the external `write_df` codec, and returns it. -/
def ModelInfo.write_simID (mi : ModelInfo) (ftype : String) (sim_id : Int)
    (inp : Bool) (extension_override : String) : Except PyErr String :=
  mi.get_filename ftype sim_id inp extension_override

/-! ### Helpers for stating the claims -/

instance {ε α : Type} [DecidableEq ε] [DecidableEq α] :
    DecidableEq (Except ε α) := fun x y =>
  match x, y with
  | Except.ok a, Except.ok b =>
      if h : a = b then Decidable.isTrue (by rw [h])
      else Decidable.isFalse (by simp [h])
  | Except.error a, Except.error b =>
      if h : a = b then Decidable.isTrue (by rw [h])
      else Decidable.isFalse (by simp [h])
  | Except.ok _, Except.error _ => Decidable.isFalse (by simp)
  | Except.error _, Except.ok _ => Decidable.isFalse (by simp)

/-- Whether a construction attempt succeeded. -/
def isOkE {α : Type} : Except PyErr α → Bool
  | Except.ok _ => true
  | Except.error _ => false

/-- The `extension` attribute of a successful construction. -/
def extOfE : Except PyErr ModelInfo → Option String
  | Except.ok mi => mi.extension
  | Except.error _ => none

/-- The lines a successful construction printed. -/
def printedOfE : Except PyErr ModelInfo → Option (List String)
  | Except.ok mi => some mi.printed
  | Except.error _ => none

/-- Whether the configured SEIR section carries no `dt` field. -/
def noDtField (sc : SeirConfig) : Prop :=
  match sc.integration with
  | none => True
  | some ib => ib.dt = none

/-! ### Concrete instances used to exercise the theorems -/

/-- A process-wide configuration with no SEIR, compartments or
outcomes-modifiers section. -/
def gEmpty : GlobalConfig :=
  ⟨none, false, false, "genin", "genout", "20240101-000000"⟩

/-- A process-wide configuration with a SEIR section (no `integration`
sub-block) and no compartments section. -/
def gSeirNoComp : GlobalConfig :=
  ⟨some ⟨none⟩, false, false, "genin", "genout", "20240101-000000"⟩

/-- A two-subpopulation structure. -/
def spopA : SubpopSetup := ⟨2, ["alpha", "beta"]⟩

/-- Baseline constructor arguments: a four-day time span, explicit run ids,
defaults everywhere else. -/
def argsBase : InitArgs :=
  { setup_name := "test", subpop_setup := spopA, nslots := 1, ti := 0, tf := 3,
    npi_scenario := none, npi_config_seir := false, seeding_config := false,
    initial_conditions_config := false, parameters_config := false,
    seir_config := none, outcomes_config := false, outcome_scenario := none,
    interactive := true, write_csv := false, write_parquet := false,
    dt := none, first_sim_index := 1, in_run_id := some "105",
    out_run_id := some "105", in_pfx := none, out_pfx := none,
    stoch_traj_flag := false }

/-- Baseline arguments with a degenerate time span (`tf = ti`). -/
def argsDegenerate : InitArgs := { argsBase with tf := 0 }

/-- Baseline arguments with a non-empty outcomes configuration. -/
def argsOutcomes : InitArgs := { argsBase with outcomes_config := true }

/-- A process-wide configuration whose "outcomes_modifiers" section
exists. -/
def gOutMod : GlobalConfig :=
  ⟨none, false, true, "genin", "genout", "20240101-000000"⟩

/-- Baseline arguments that also pass a SEIR configuration explicitly. -/
def argsSeir : InitArgs := { argsBase with seir_config := some ⟨none⟩ }

/-- Baseline arguments requesting both CSV and Parquet output. -/
def argsBoth : InitArgs :=
  { argsBase with write_csv := true, write_parquet := true }

/-- A SEIR section with no `integration` sub-block. -/
def scNoInt : SeirConfig := ⟨none⟩

/-- A SEIR section whose `integration` sub-block has neither `method` nor
`dt`. -/
def scNoMethod : SeirConfig := ⟨some ⟨none, none⟩⟩

/-- A SEIR section whose `integration` sub-block has `dt: "1/4"` and no
`method`. -/
def scDtQuarter : SeirConfig := ⟨some ⟨none, some "1/4"⟩⟩

/-- A SEIR section whose `integration` sub-block has an unparsable `dt`. -/
def scDtBad : SeirConfig := ⟨some ⟨none, some "no formula"⟩⟩

/-- The resolution triple produced for [`scDtQuarter`] with no override. -/
def outQuarter : Option String × Option Rat × List String :=
  (none, some (Rat.divInt 1 4), [])

/-- The descriptor `ModelInfo.init gEmpty argsBase` constructs (no output
format requested, so no `extension` attribute). -/
def miPlain : ModelInfo :=
  { setup_name := "test", nslots := 1, dt := none, ti := 0, tf := 3,
    n_days := 4, nsubpops := 2, npi_scenario := none, seir_config := none,
    outcomes_config := false, write_csv := false, write_parquet := false,
    first_sim_index := 1, integration_method := none,
    compartments_set := false, npi_config_outcomes := none,
    in_run_id := "105", out_run_id := "105",
    in_pfx := "model_output/test/105/",
    out_pfx := "model_output/test/None/105/", extension := none,
    timestamp := none, info_logs := [], printed := [] }

/-- The descriptor `ModelInfo.init gSeirNoComp argsSeir` constructs (SEIR
branch runs, compartments section absent). -/
def miSeir : ModelInfo :=
  { miPlain with
    dt := some 2, seir_config := some ⟨none⟩,
    integration_method := some "rk4.jit",
    info_logs := [integrationDefaultMsg] }

/-- A descriptor with a default extension and first simulation index 1. -/
def miIdx1 : ModelInfo :=
  { miPlain with
    write_parquet := true, extension := some "parquet",
    timestamp := some "20240101-000000" }

/-- [`miIdx1`] with first simulation index 100. -/
def miIdx100 : ModelInfo := { miIdx1 with first_sim_index := 100 }


/-! ### Helper lemmas -/

theorem resolveIntegration_override (sc : SeirConfig) (q : Rat)
    (out : Option String × Option Rat × List String)
    (h : resolveIntegration sc (some q) = Except.ok out) :
    out.2.1 = some q := by
  rcases hsc : sc.integration with _ | ib
  · simp only [resolveIntegration, hsc, Option.isNone_some, Bool.false_eq_true,
      if_false] at h
    injection h with h
    subst h
    rfl
  · rcases hdt : ib.dt with _ | s <;> rcases hm : ib.method with _ | m0
    · simp only [resolveIntegration, hsc, hm, hdt, Option.isNone_some,
        Bool.false_eq_true, if_false] at h
      injection h with h
      subst h
      rfl
    · rcases hR : resolveMethod m0 with e | m
      · simp only [resolveIntegration, hsc, hm, hdt, hR] at h
        exact Except.noConfusion h
      · simp only [resolveIntegration, hsc, hm, hdt, hR, Option.isNone_some,
          Bool.false_eq_true, if_false] at h
        injection h with h
        subst h
        rfl
    · simp only [resolveIntegration, hsc, hm, hdt, Option.isNone_some,
        Bool.false_eq_true, if_false] at h
      injection h with h
      subst h
      rfl
    · rcases hR : resolveMethod m0 with e | m
      · simp only [resolveIntegration, hsc, hm, hdt, hR] at h
        exact Except.noConfusion h
      · simp only [resolveIntegration, hsc, hm, hdt, hR, Option.isNone_some,
          Bool.false_eq_true, if_false] at h
        injection h with h
        subst h
        rfl

theorem resolveIntegration_default (sc : SeirConfig)
    (out : Option String × Option Rat × List String) (hno : noDtField sc)
    (h : resolveIntegration sc none = Except.ok out) :
    out.2.1 = some 2 := by
  rcases hsc : sc.integration with _ | ib
  · simp only [resolveIntegration, hsc, Option.isNone_none, if_true] at h
    injection h with h
    subst h
    rfl
  · have hdt : ib.dt = none := by
      simp only [noDtField, hsc] at hno
      exact hno
    rcases hm : ib.method with _ | m0
    · simp only [resolveIntegration, hsc, hm, hdt, Option.isNone_none,
        if_true] at h
      injection h with h
      subst h
      rfl
    · rcases hR : resolveMethod m0 with e | m
      · simp only [resolveIntegration, hsc, hm, hdt, hR] at h
        exact Except.noConfusion h
      · simp only [resolveIntegration, hsc, hm, hdt, hR, Option.isNone_none,
          if_true] at h
        injection h with h
        subst h
        rfl

theorem resolveIntegration_formula (sc : SeirConfig) (ib : IntegrationBlock)
    (s : String) (out : Option String × Option Rat × List String)
    (hib : sc.integration = some ib) (hdt : ib.dt = some s)
    (h : resolveIntegration sc none = Except.ok out) :
    out.2.1 = evalFormula s := by
  rcases hev : evalFormula s with _ | q
  · rcases hm : ib.method with _ | m0
    · simp only [resolveIntegration, hib, hm, hdt, hev] at h
      exact Except.noConfusion h
    · rcases hR : resolveMethod m0 with e | m
      all_goals simp only [resolveIntegration, hib, hm, hdt, hR, hev] at h
      all_goals exact Except.noConfusion h
  · rcases hm : ib.method with _ | m0
    · simp only [resolveIntegration, hib, hm, hdt, hev] at h
      injection h with h
      subst h
      rfl
    · rcases hR : resolveMethod m0 with e | m
      · simp only [resolveIntegration, hib, hm, hdt, hR] at h
        exact Except.noConfusion h
      · simp only [resolveIntegration, hib, hm, hdt, hR, hev] at h
        injection h with h
        subst h
        rfl

theorem resolveIntegration_unparsable (sc : SeirConfig)
    (ib : IntegrationBlock) (s : String)
    (hib : sc.integration = some ib) (hm : ib.method = none)
    (hdt : ib.dt = some s) (hev : evalFormula s = none) :
    resolveIntegration sc none = Except.error (PyErr.evalError s) := by
  simp only [resolveIntegration, hib, hm, hdt, hev]

theorem seirStep_ok_compSet (g : GlobalConfig) (a : InitArgs)
    (im : Option String) (dtv : Option Rat) (logs : List String)
    (compSet : Bool)
    (h : seirStep g a = Except.ok (im, dtv, logs, compSet)) :
    compSet =
      ((g.seir.isSome && (a.seir_config.isSome || a.parameters_config)) &&
        g.compartments_exists) := by
  unfold seirStep at h
  split at h
  · rename_i hg
    split at h
    · split at h
      · exact absurd h (by simp)
      · injection h with h
        injection h with h1 h
        injection h with h2 h
        injection h with h3 h4
        rw [hg, Bool.true_and, ← h4]
    · exact absurd h (by simp)
  · rename_i hg
    rw [Bool.not_eq_true] at hg
    injection h with h
    injection h with h1 h
    injection h with h2 h
    injection h with h3 h4
    rw [hg, Bool.false_and, ← h4]

theorem init_ok_inv (g : GlobalConfig) (a : InitArgs) (mi : ModelInfo)
    (h : ModelInfo.init g a = Except.ok mi) :
    a.ti < a.tf ∧
    a.outcomes_config = false ∧
    mi.n_days = a.tf - a.ti + 1 ∧
    mi.first_sim_index = a.first_sim_index ∧
    mi.write_csv = a.write_csv ∧
    mi.write_parquet = a.write_parquet ∧
    mi.extension = (resolveExtension a.write_csv a.write_parquet).1 ∧
    mi.printed = (resolveExtension a.write_csv a.write_parquet).2 ∧
    mi.compartments_set =
      ((g.seir.isSome && (a.seir_config.isSome || a.parameters_config)) &&
        g.compartments_exists) := by
  unfold ModelInfo.init at h
  split at h
  · exact absurd h (by simp)
  · rename_i hle
    split at h
    · exact absurd h (by simp)
    · rename_i im dtv logs compSet heq
      split at h
      · exact absurd h (by simp)
      · rename_i hoc
        rw [Bool.not_eq_true] at hoc
        injection h with h
        subst h
        exact ⟨by omega, hoc, rfl, rfl, rfl, rfl, rfl, rfl,
          seirStep_ok_compSet g a im dtv logs compSet heq⟩

/-- C1: the claim says that with a non-empty outcomes configuration the
constructor binds the process-wide "outcomes_modifiers" section (absence
not an error) and completes.  The code instead reads
`self.config["outcomes_modifiers"]` on an instance that has no `config`
attribute, so every such construction raises `AttributeError` — evaluated
here at concrete failing inputs, both without and with an
"outcomes_modifiers" section in the process-wide configuration. -/
theorem outcomes_modifiers_attribute_error :
    ModelInfo.init gEmpty argsOutcomes =
      Except.error (PyErr.attributeError "config") ∧
    ModelInfo.init gOutMod argsOutcomes =
      Except.error (PyErr.attributeError "config") := by decide

/-- C2 counterexample: with a SEIR configuration present and the
compartments section absent, construction succeeds — it does not fail with
a configuration error as the claim states. -/
theorem compartments_absent_no_failure :
    isOkE (ModelInfo.init gSeirNoComp argsSeir) = true := by decide

/-- C2 amended: when the compartments configuration section is absent,
every successful construction simply leaves the compartments collaborator
unconstructed (the attribute is never assigned); no error is raised. -/
theorem compartments_absent_skipped (g : GlobalConfig) (a : InitArgs)
    (mi : ModelInfo) (hc : g.compartments_exists = false)
    (h : ModelInfo.init g a = Except.ok mi) :
    mi.compartments_set = false := by
  have h9 := (init_ok_inv g a mi h).2.2.2.2.2.2.2.2
  rw [hc, Bool.and_false] at h9
  exact h9

/-- Witness for C2 amended at a concrete construction with a SEIR section
and no compartments section. -/
theorem compartments_absent_skipped_witness :
    gSeirNoComp.compartments_exists = false ∧
    ModelInfo.init gSeirNoComp argsSeir = Except.ok miSeir ∧
    miSeir.compartments_set = false :=
  ⟨rfl, by decide,
    compartments_absent_skipped gSeirNoComp argsSeir miSeir rfl (by decide)⟩

/-- C3: for every pair of dates with `end_date <= start_date`, constructing
the run descriptor fails with the fatal time-ordering error (the
`ConfigurationError` of the spec, a `ValueError` in the code) and no
descriptor is produced. -/
theorem timespan_order_check (g : GlobalConfig) (a : InitArgs)
    (h : a.tf ≤ a.ti) :
    ModelInfo.init g a = Except.error (PyErr.valueError
      "tf (time to finish) is less than or equal to ti (time to start)") := by
  unfold ModelInfo.init
  rw [if_pos h]

/-- Witness for C3 at `tf = ti = 0`. -/
theorem timespan_order_check_witness :
    argsDegenerate.tf ≤ argsDegenerate.ti ∧
    ModelInfo.init gEmpty argsDegenerate = Except.error (PyErr.valueError
      "tf (time to finish) is less than or equal to ti (time to start)") :=
  ⟨by decide, timespan_order_check gEmpty argsDegenerate (by decide)⟩

/-- C4: every constructed descriptor has
`n_days = (tf - ti).days + 1`, inclusive of both endpoints. -/
theorem n_days_inclusive (g : GlobalConfig) (a : InitArgs) (mi : ModelInfo)
    (h : ModelInfo.init g a = Except.ok mi) :
    mi.n_days = a.tf - a.ti + 1 :=
  (init_ok_inv g a mi h).2.2.1

/-- Witness for C4: the concrete four-day construction. -/
theorem n_days_inclusive_witness :
    ModelInfo.init gEmpty argsBase = Except.ok miPlain ∧
    miPlain.n_days = argsBase.tf - argsBase.ti + 1 :=
  ⟨by decide, n_days_inclusive gEmpty argsBase miPlain (by decide)⟩

/-- C5 counterexample: the method string "legacy" is none of
"best.current", "rk4", "rk4.jit", yet resolution succeeds instead of
failing as the claim states. -/
theorem legacy_method_accepted :
    resolveMethod "legacy" = Except.ok "legacy" := by decide

/-- C5 amended: "best.current", "rk4" and "rk4.jit" all resolve to the
canonical "rk4.jit"; "legacy" is also accepted unchanged; every other
method string fails with an error naming the offending (post-alias)
string. -/
theorem method_resolution_amended :
    resolveMethod "best.current" = Except.ok "rk4.jit" ∧
    resolveMethod "rk4" = Except.ok "rk4.jit" ∧
    resolveMethod "rk4.jit" = Except.ok "rk4.jit" ∧
    resolveMethod "legacy" = Except.ok "legacy" ∧
    ∀ m : String, m ≠ "best.current" → m ≠ "rk4" → m ≠ "rk4.jit" →
      m ≠ "legacy" →
      resolveMethod m = Except.error
        (PyErr.valueError ("Unknown integration method " ++ m ++ ".")) := by
  refine ⟨by decide, by decide, by decide, by decide, ?_⟩
  intro m h1 h2 h3 h4
  simp only [resolveMethod, if_neg h1, if_neg h2]
  rw [if_neg ?hor]
  case hor => exact fun hc => hc.elim h3 h4

/-- Witness for C5 amended at the unknown method string "euler". -/
theorem method_resolution_amended_witness :
    ("euler" : String) ≠ "best.current" ∧ ("euler" : String) ≠ "rk4" ∧
    ("euler" : String) ≠ "rk4.jit" ∧ ("euler" : String) ≠ "legacy" ∧
    resolveMethod "euler" = Except.error
      (PyErr.valueError "Unknown integration method euler.") :=
  ⟨by decide, by decide, by decide, by decide,
    method_resolution_amended.2.2.2.2 "euler" (by decide) (by decide)
      (by decide) (by decide)⟩

/-- C6 counterexample: when the integration sub-block is present but has
no method field, resolution leaves the integration method unset (not
"rk4.jit") and emits no log entry, contrary to the claim. -/
theorem integration_block_without_method :
    resolveIntegration scNoMethod none = Except.ok (none, some 2, []) := by
  decide

/-- C6 amended: only when the integration sub-block is entirely absent
does the method default to "rk4.jit" with an informational log entry; when
the sub-block is present without a method field, the method attribute
stays unset and no log entry is emitted. -/
theorem integration_method_default_amended (sc : SeirConfig)
    (dt0 : Option Rat) :
    (sc.integration = none →
      resolveIntegration sc dt0 = Except.ok (some "rk4.jit",
        (if dt0.isNone then some 2 else dt0), [integrationDefaultMsg])) ∧
    (∀ ib out, sc.integration = some ib → ib.method = none →
      resolveIntegration sc dt0 = Except.ok out →
      out.1 = none ∧ out.2.2 = ([] : List String)) := by
  constructor
  · intro hn
    simp only [resolveIntegration, hn]
  · intro ib out hib hm h
    rcases hdt : ib.dt with _ | s <;> rcases hd0 : dt0 with _ | q
    · simp only [resolveIntegration, hib, hm, hdt, hd0] at h
      injection h with h
      subst h
      exact ⟨rfl, rfl⟩
    · simp only [resolveIntegration, hib, hm, hdt, hd0] at h
      injection h with h
      subst h
      exact ⟨rfl, rfl⟩
    · rcases hev : evalFormula s with _ | q0
      · simp only [resolveIntegration, hib, hm, hdt, hd0, hev] at h
        exact Except.noConfusion h
      · simp only [resolveIntegration, hib, hm, hdt, hd0, hev] at h
        injection h with h
        subst h
        exact ⟨rfl, rfl⟩
    · simp only [resolveIntegration, hib, hm, hdt, hd0] at h
      injection h with h
      subst h
      exact ⟨rfl, rfl⟩

/-- Witness for C6 amended: the absent-integration-block default. -/
theorem integration_method_default_amended_witness :
    scNoInt.integration = none ∧
    resolveIntegration scNoInt none = Except.ok (some "rk4.jit", some 2,
      [integrationDefaultMsg]) :=
  ⟨rfl, (integration_method_default_amended scNoInt none).1 rfl⟩

/-- C7: step-size resolution — with no dt field and no override the
resolved step size is 2.0; an explicit override always wins; a configured
dt formula string is numerically evaluated (e.g. "1/4" gives 0.25); an
unparsable dt expression makes resolution fail. -/
theorem dt_resolution (sc : SeirConfig) :
    evalFormula "1/4" = some (1/4 : Rat) ∧
    (∀ out, resolveIntegration sc none = Except.ok out → noDtField sc →
      out.2.1 = some 2) ∧
    (∀ q out, resolveIntegration sc (some q) = Except.ok out →
      out.2.1 = some q) ∧
    (∀ ib s out, sc.integration = some ib → ib.dt = some s →
      resolveIntegration sc none = Except.ok out →
      out.2.1 = evalFormula s) ∧
    (∀ ib s, sc.integration = some ib → ib.method = none → ib.dt = some s →
      evalFormula s = none →
      resolveIntegration sc none = Except.error (PyErr.evalError s)) := by
  refine ⟨?_, ?_, ?_, ?_, ?_⟩
  · rw [show ((1 : Rat)/4) = Rat.divInt 1 4 by rw [Rat.divInt_eq_div]; norm_num]
    decide
  · intro out h hno
    exact resolveIntegration_default sc out hno h
  · intro q out h
    exact resolveIntegration_override sc q out h
  · intro ib s out hib hdt h
    exact resolveIntegration_formula sc ib s out hib hdt h
  · intro ib s hib hm hdt hev
    exact resolveIntegration_unparsable sc ib s hib hm hdt hev

/-- Witness for C7 at the configured formula `dt: "1/4"`. -/
theorem dt_resolution_witness :
    resolveIntegration scDtQuarter none = Except.ok outQuarter ∧
    scDtQuarter.integration = some ⟨none, some "1/4"⟩ ∧
    outQuarter.2.1 = evalFormula "1/4" ∧
    evalFormula "1/4" = some (1/4 : Rat) :=
  ⟨by decide, rfl,
    (dt_resolution scDtQuarter).2.2.2.1 ⟨none, some "1/4"⟩ "1/4" outQuarter
      rfl rfl (by decide),
    (dt_resolution scDtQuarter).1⟩

/-- C8: requesting both CSV and Parquet yields default extension
"parquet" plus a printed warning and never an error; requesting exactly
one format yields the extension of that format. -/
theorem extension_precedence :
    resolveExtension true true = (some "parquet", [confusedMsg]) ∧
    resolveExtension false true = (some "parquet", []) ∧
    resolveExtension true false = (some "csv", []) ∧
    isOkE (ModelInfo.init gEmpty argsBoth) = true ∧
    extOfE (ModelInfo.init gEmpty argsBoth) = some "parquet" ∧
    printedOfE (ModelInfo.init gEmpty argsBoth) = some [confusedMsg] :=
  ⟨by decide, by decide, by decide, by decide, by decide, by decide⟩

/-- C9: every resolved filename embeds the zero-padded global simulation
index `sim_id + first_sim_index - 1`. -/
theorem global_sim_index (mi : ModelInfo) (ftype : String) (sim_id : Int)
    (inp : Bool) (ov : String) (fn : String)
    (h : mi.get_filename ftype sim_id inp ov = Except.ok fn) :
    ∃ ext, fn =
      (if inp then mi.in_pfx else mi.out_pfx) ++
        zeroPad9 (sim_id + mi.first_sim_index - 1) ++ "." ++
        (if inp then mi.in_run_id else mi.out_run_id) ++ "." ++
        ftype ++ "." ++ ext := by
  by_cases hov : ov = ""
  · rcases hext : mi.extension with _ | e
    · simp only [ModelInfo.get_filename, hov, hext, if_pos] at h
      exact Except.noConfusion h
    · simp only [ModelInfo.get_filename, hov, hext, if_pos] at h
      injection h with h
      exact ⟨e, h.symm⟩
  · simp only [ModelInfo.get_filename, if_neg hov] at h
    injection h with h
    exact ⟨ov, h.symm⟩

/-- Witness for C9: `sim_id=1` with `first_sim_index=1` yields global
index 000000001; with `first_sim_index=100`, 000000100. -/
theorem global_sim_index_witness :
    miIdx1.get_filename "hosp" 1 true "" =
      Except.ok "model_output/test/105/000000001.105.hosp.parquet" ∧
    (∃ ext, "model_output/test/105/000000001.105.hosp.parquet" =
      miIdx1.in_pfx ++ zeroPad9 (1 + miIdx1.first_sim_index - 1) ++ "." ++
        miIdx1.in_run_id ++ "." ++ "hosp" ++ "." ++ ext) ∧
    miIdx100.get_filename "hosp" 1 true "" =
      Except.ok "model_output/test/105/000000100.105.hosp.parquet" ∧
    (∃ ext, "model_output/test/105/000000100.105.hosp.parquet" =
      miIdx100.in_pfx ++ zeroPad9 (1 + miIdx100.first_sim_index - 1) ++ "." ++
        miIdx100.in_run_id ++ "." ++ "hosp" ++ "." ++ ext) :=
  ⟨by decide,
    global_sim_index miIdx1 "hosp" 1 true ""
      "model_output/test/105/000000001.105.hosp.parquet" (by decide),
    by decide,
    global_sim_index miIdx100 "hosp" 1 true ""
      "model_output/test/105/000000100.105.hosp.parquet" (by decide)⟩

/-- C10: a descriptor constructed with `write_csv=False` and
`write_parquet=False` has no default extension, so filename resolution
(and hence `read_simID` / `write_simID`) with an empty extension override
fails with an attribute error, while a non-empty override succeeds and is
used verbatim in the path. -/
theorem missing_extension_behavior (g : GlobalConfig) (a : InitArgs)
    (mi : ModelInfo) (h : ModelInfo.init g a = Except.ok mi)
    (hc : a.write_csv = false) (hp : a.write_parquet = false) :
    mi.extension = none ∧
    (∀ ftype sim_id inp, mi.get_filename ftype sim_id inp "" =
      Except.error (PyErr.attributeError "extension")) ∧
    (∀ ftype sim_id inp ov, ov ≠ "" →
      mi.get_filename ftype sim_id inp ov = Except.ok
        (create_file_name (if inp then mi.in_run_id else mi.out_run_id)
          (if inp then mi.in_pfx else mi.out_pfx)
          (sim_id + mi.first_sim_index - 1) ftype ov)) ∧
    (∀ ftype sim_id inp, mi.read_simID ftype sim_id inp "" =
      Except.error (PyErr.attributeError "extension")) ∧
    (∀ ftype sim_id inp, mi.write_simID ftype sim_id inp "" =
      Except.error (PyErr.attributeError "extension")) := by
  have hext : mi.extension = none := by
    have h7 := (init_ok_inv g a mi h).2.2.2.2.2.2.1
    rw [hc, hp] at h7
    exact h7
  have hfail : ∀ ftype sim_id inp, mi.get_filename ftype sim_id inp "" =
      Except.error (PyErr.attributeError "extension") := by
    intro ftype sim_id inp
    simp [ModelInfo.get_filename, hext]
  refine ⟨hext, hfail, ?_, ?_, ?_⟩
  · intro ftype sim_id inp ov hov
    simp only [ModelInfo.get_filename, if_neg hov]
  · intro ftype sim_id inp
    exact hfail ftype sim_id inp
  · intro ftype sim_id inp
    exact hfail ftype sim_id inp

/-- Witness for C10 on the concrete formatless descriptor. -/
theorem missing_extension_behavior_witness :
    ModelInfo.init gEmpty argsBase = Except.ok miPlain ∧
    argsBase.write_csv = false ∧ argsBase.write_parquet = false ∧
    miPlain.extension = none ∧
    miPlain.get_filename "seir" 1 true "" =
      Except.error (PyErr.attributeError "extension") ∧
    miPlain.get_filename "seir" 1 true "csv" =
      Except.ok "model_output/test/105/000000001.105.seir.csv" := by
  have h := missing_extension_behavior gEmpty argsBase miPlain (by decide)
    rfl rfl
  refine ⟨by decide, rfl, rfl, h.1, h.2.1 "seir" 1 true, ?_⟩
  rw [h.2.2.1 "seir" 1 true "csv" (by decide)]
  decide

end Gempyor
